import Mathlib

/-!
# Session layer of `core/session.go`

A shallow embedding of the session/request layer: session construction
(`NewSession`), the request executor with its retry policy (`execute`), the
header and query-parameter assemblers (`buildHeader`, `buildURLParams`) and the
selection workflow (`Choose`, `chooseAddr`, `choosePay`, `chooseCartMode`).

External collaborators (the HTTP transport, the `gjson` lookup, the interactive
prompt, the address lookup, `strconv.FormatFloat`) are explicit function
arguments; their effects are recorded as a list of `Event`s in program order.
-/

namespace Core

/-! ## Go library values used by the file -/

/-- Go `strings.HasPrefix(s, p)`. Go compares bytes; the prefixes used in this
file are ASCII, for which the comparison of characters is the same test. -/
def HasPrefix (s p : String) : Bool :=
  p.data.isPrefixOf s.data

/-- Go `http.Header` and `url.Values`: a map from a key to a list of values,
kept as an association list with at most one entry per key. `net/http` spells
keys canonically in both `Set` and `Get`; keys are kept here as written in the
source, where all keys of one map differ also in canonical spelling. -/
abbrev Header := List (String × List String)

/-- Go `url.Values`, the same map type as `http.Header`. -/
abbrev Values := List (String × List String)

/-- Go `header.Set(key, value)`: the entry of `key` becomes the single value. -/
def Header.Set (h : Header) (key value : String) : Header :=
  (key, [value]) :: h.filter (fun e => e.1 != key)

/-- Go `params.Add(key, value)`: appends the value to the entry of `key`. -/
def Values.Add (v : Values) (key value : String) : Values :=
  match v.lookup key with
  | some vs => (key, vs ++ [value]) :: v.filter (fun e => e.1 != key)
  | none => (key, [value]) :: v

/-- The map read `v[key]`: the values of `key`, or `none` for an absent key. -/
def Values.Lookup (v : Values) (key : String) : Option (List String) :=
  v.lookup key

/-- Whether `key` has an entry in the map. -/
def Values.Has (v : Values) (key : String) : Bool :=
  (v.lookup key).isSome

/-- The map read `h[key]`: the values of `key`, or `none` for an absent key. -/
def Header.Lookup (h : Header) (key : String) : Option (List String) :=
  h.lookup key

/-- Whether `key` has an entry in the map. -/
def Header.Has (h : Header) (key : String) : Bool :=
  (h.lookup key).isSome

/-- Go `header.Get(key)`: the first value of `key`, or the empty string. -/
def Header.Get (h : Header) (key : String) : String :=
  match h.lookup key with
  | some (v :: _) => v
  | _ => ""

/-- A Go `float64` as far as this file looks at one: it is compared with integer
constants by `==` and handed to `strconv.FormatFloat`. Finite values are
rationals (negative zero equals zero), `nan` equals nothing. -/
inductive Float64 where
  | finite (q : ℚ)
  | nan
  | inf (negative : Bool)
deriving DecidableEq

/-- The float64 value of an integer constant of the source. -/
def Float64.ofInt (z : Int) : Float64 := .finite z

/-- Go `x == y` on float64 values. -/
def Float64.eq (x y : Float64) : Bool :=
  match x, y with
  | .finite a, .finite b => decide (a = b)
  | .inf s, .inf t => s == t
  | _, _ => false

/-- Go `int64(x)` wrap-around of a mathematical integer (two's complement). -/
def wrapInt64 (z : Int) : Int :=
  (z + 2 ^ 63) % 2 ^ 64 - 2 ^ 63

/-- The `time.Millisecond` constant, in nanoseconds. -/
def Millisecond : Int := 1000000

/-- A `context.Context` handed in by a caller; only its identity matters. -/
structure Context where
  id : Nat
deriving DecidableEq, Repr

/-- The part of `*resty.Request` that `execute` touches: the context bound by
`SetContext`, and the rest of the request, which `execute` never changes. -/
structure Request where
  ctx : Option Context
  payload : String
deriving DecidableEq, Repr

/-- Go `request.SetContext(ctx)`: stores the context in the request object. The
source discards the returned pointer, so the binding is this mutation. -/
def Request.SetContext (r : Request) (c : Context) : Request :=
  { r with ctx := some c }

/-- The statement `if ctx != nil { request.SetContext(ctx) }`: the request
object afterwards. -/
def bindContext (ctx : Option Context) (request : Request) : Request :=
  match ctx with
  | some c => request.SetContext c
  | none => request

/-- The part of `*resty.Response` that `execute` reads. -/
structure Response where
  StatusCode : Int
  Body : String
deriving DecidableEq, Repr

/-- The value kinds of `gjson.Result`. -/
inductive GjsonType where
  | Null | False | Number | String | True | JSON
deriving DecidableEq

/-- The `gjson.Result` struct (field `Type` is spelled `Typ`); `execute` reads
the field `Num` directly. -/
structure GjsonResult where
  Typ : GjsonType
  Raw : String
  Str : String
  Num : Float64

/-- The `resty.Client` as far as this file uses it: its default headers. -/
structure Client where
  Header : Header

/-- The inner `Location` struct of an address. -/
structure AddressLocation where
  Address : String
  Location : List Float64

/-- The `AddressItem` type, declared outside `session.go`: the fields this file
reads. -/
structure AddressItem where
  CityNumber : String
  StationId : String
  AddrDetail : String
  Location : AddressLocation

/-- The `Session` struct. `Cart`, `Order` and `PackageOrder` are declared
outside `session.go` and are type parameters. `Address` is a pointer: `none` is
the nil pointer. `interval` is an int64 count of milliseconds, a value from
`-2 ^ 63` to `2 ^ 63 - 1`. -/
structure Session (Cart Order PackageOrder : Type) where
  client : Client
  interval : Int
  UserID : String
  Address : Option AddressItem
  BarkId : String
  PayType : Int
  CartMode : Int
  Cart : Cart
  Order : Order
  PackageOrder : PackageOrder

variable {Cart Order PackageOrder : Type}

/-! ## NewSession -/

/-- The cookie value after the first statement of `NewSession`. -/
def normalizeCookie (cookie : String) : String :=
  if !HasPrefix cookie "DDXQSESSID=" then "DDXQSESSID=" ++ cookie else cookie

/-- The default header map built by `NewSession`. -/
def newSessionHeader (cookie : String) : Header :=
  let cookie := normalizeCookie cookie
  let header : Header := []
  let header := header.Set "Host" "maicai.api.ddxq.mobi"
  let header := header.Set "user-agent" "Mozilla/5.0 (Linux; Android 9; LIO-AN00 Build/LIO-AN00; wv) AppleWebKit/537.36 (KHTML, like Gecko) Version/4.0 Chrome/92.0.4515.131 Mobile Safari/537.36 xzone/9.47.0 station_id/null"
  let header := header.Set "accept" "application/json, text/plain, */*"
  let header := header.Set "content-type" "application/x-www-form-urlencoded"
  let header := header.Set "origin" "https://wx.m.ddxq.mobi"
  let header := header.Set "x-requested-with" "com.yaya.zone"
  let header := header.Set "sec-fetch-site" "same-site"
  let header := header.Set "sec-fetch-mode" "cors"
  let header := header.Set "sec-fetch-dest" "empty"
  let header := header.Set "referer" "https://wx.m.ddxq.mobi/"
  let header := header.Set "accept-language" "zh-CN,zh;q=0.9,en-US;q=0.8,en;q=0.7"
  let header := header.Set "cookie" cookie
  header

/-- Go `NewSession(cookie, interval)`. The fields the composite literal leaves
out are Go zero values; for the three fields of outside types the zero value is
an argument. -/
def NewSession (cookie : String) (interval : Int)
    (cart : Cart) (order : Order) (packageOrder : PackageOrder) :
    Session Cart Order PackageOrder :=
  { client := { Header := newSessionHeader cookie }
    interval := interval
    UserID := ""
    Address := none
    BarkId := ""
    PayType := 0
    CartMode := 0
    Cart := cart
    Order := order
    PackageOrder := packageOrder }

/-! ## execute -/

/-- The error values built by the `fmt.Errorf` and `errors.New` calls of the
file, one constructor per call site, holding the formatted arguments. -/
inductive Error where
  /-- Text `request failed: %v`. -/
  | requestFailed (err : String)
  /-- Text `statusCode: %d, body: %s`. -/
  | statusCode (status : Int) (body : String)
  /-- Text `无法识别的状态码: %v`. -/
  | unknownCode (body : String)
  /-- Text `获取收货地址失败: %v`. -/
  | getAddressFailed (err : String)
  /-- Text `选择收货地址错误: %v`. -/
  | askAddressFailed (err : String)
  /-- Text `请选择正确的收货地址`. -/
  | wrongAddress
  /-- Text `选择支付方式错误: %v`. -/
  | askPayFailed (err : String)
  /-- Text `无法识别的支付方式: %s`. -/
  | unknownPay (payName : String)
  /-- Text `选择购物车商品结算模式错误: %v`. -/
  | askCartModeFailed (err : String)
  /-- Text `无法识别的购物车商品结算模式: %s`. -/
  | unknownCartMode (cartDesc : String)
deriving DecidableEq

deriving instance DecidableEq for Except

/-- The fields of a `survey.Select` prompt set by the file; `Default` is an
interface value, `none` when the literal leaves it out. -/
structure Select where
  Message : String
  Options : List String
  Default : Option String
deriving DecidableEq

/-- The effects of the file on its collaborators, in program order. -/
inductive Event where
  /-- Call `request.Execute(method, url)` with the request as it is then. -/
  | sent (request : Request) (method url : String)
  /-- Call `time.Sleep(d)`, with `d` in nanoseconds. -/
  | slept (d : Int)
  /-- Warning `当前人多拥挤(%v): %s`. -/
  | warnedCrowded (code : Float64) (body : String)
  /-- Warning `部分数据加载失败: %s`. -/
  | warnedPartial (body : String)
  /-- Warning `将在 %dms 后重试`. -/
  | warnedRetry (interval : Int)
  /-- Call `s.GetAddress()`. -/
  | lookedUpAddress
  /-- Call `survey.AskOne(sv, ...)`. -/
  | asked (sv : Select)
  /-- Info `已选择收货地址: %s %s`. -/
  | loggedAddress (address detail : String)
deriving DecidableEq

/-- What one call of `execute` leaves behind: the returned pair (a response
with a nil error, or a nil response with an error), the request object as the
call leaves it, and the effects of the call. -/
structure ExecOut where
  result : Except Error Response
  request : Request
  trace : List Event
deriving DecidableEq

/-- The HTTP status `http.StatusOK`. -/
def StatusOK : Int := 200

/-- Go `(s *Session).execute(ctx, request, method, url)`.

`transport n` is the answer of the `n`-th call of `request.Execute` (a
transport error, or a response); `attempt` is the number of calls made before
this one. `gjsonGet body path` is `gjson.ParseBytes(body).Get(path)`. The
recursion of the source has no bound, so the embedding takes `fuel`, the number
of nested calls allowed; `none` means the fuel ran out. -/
def execute (s : Session Cart Order PackageOrder)
    (gjsonGet : String → String → GjsonResult)
    (transport : Nat → Except String Response) :
    Nat → Nat → Option Context → Request → String → String → Option ExecOut
  | 0, _, _, _, _, _ => none
  | fuel + 1, attempt, ctx, request, method, url =>
    let request := bindContext ctx request
    let sent := Event.sent request method url
    match transport attempt with
    | .error err => some ⟨.error (.requestFailed err), request, [sent]⟩
    | .ok resp =>
      if resp.StatusCode ≠ StatusOK then
        some ⟨.error (.statusCode resp.StatusCode resp.Body), request, [sent]⟩
      else
        let result := gjsonGet resp.Body "code"
        let code := result.Num
        let retry (warning : Event) : Option ExecOut :=
          let d := wrapInt64 (s.interval * Millisecond)
          (execute s gjsonGet transport fuel (attempt + 1) none request method url).map
            fun out =>
              { out with trace :=
                  [sent, warning, .warnedRetry s.interval, .slept d] ++ out.trace }
        if code.eq (.ofInt 0) then
          some ⟨.ok resp, request, [sent]⟩
        else if code.eq (.ofInt (-3000)) || code.eq (.ofInt (-3001)) then
          retry (.warnedCrowded code resp.Body)
        else if code.eq (.ofInt (-3100)) then
          retry (.warnedPartial resp.Body)
        else
          some ⟨.error (.unknownCode resp.Body), request, [sent]⟩

/-- The requests handed to the transport, in order. -/
def sends : List Event → List Request
  | [] => []
  | .sent r _ _ :: es => r :: sends es
  | _ :: es => sends es

/-- The durations handed to `time.Sleep`, in nanoseconds, in order. -/
def sleeps : List Event → List Int
  | [] => []
  | .slept d :: es => d :: sleeps es
  | _ :: es => sleeps es

/-- The envelope code `execute` reads from a response: the field `Num` of the
`gjson` lookup of `code` in the body. -/
def envelopeCode (gjsonGet : String → String → GjsonResult) (resp : Response) : Float64 :=
  (gjsonGet resp.Body "code").Num

/-- A transport answer with HTTP status 200 and an envelope code in
`-3000, -3001, -3100` (the congestion codes and the partial-data code). -/
def isRetryable (gjsonGet : String → String → GjsonResult) :
    Except String Response → Bool
  | .error _ => false
  | .ok resp =>
    resp.StatusCode == 200 &&
      ((envelopeCode gjsonGet resp).eq (.ofInt (-3000)) ||
       (envelopeCode gjsonGet resp).eq (.ofInt (-3001)) ||
       (envelopeCode gjsonGet resp).eq (.ofInt (-3100)))

/-- A transport answer with HTTP status 200 and envelope code 0. -/
def isSuccess (gjsonGet : String → String → GjsonResult) :
    Except String Response → Bool
  | .error _ => false
  | .ok resp => resp.StatusCode == 200 && (envelopeCode gjsonGet resp).eq (.ofInt 0)

/-- A transport failure, an HTTP status other than 200, or status 200 with an
envelope code outside `0, -3000, -3001, -3100`. -/
def isFatal (gjsonGet : String → String → GjsonResult) :
    Except String Response → Bool
  | .error _ => true
  | .ok resp =>
    resp.StatusCode != 200 ||
      !((envelopeCode gjsonGet resp).eq (.ofInt 0) ||
        (envelopeCode gjsonGet resp).eq (.ofInt (-3000)) ||
        (envelopeCode gjsonGet resp).eq (.ofInt (-3001)) ||
        (envelopeCode gjsonGet resp).eq (.ofInt (-3100)))

/-- How `gjson` fills the field `Num`: only a result of type `Number` carries a
number; every other result, the zero `Result` of a path that is not found or of
a body that cannot be read included, keeps the float64 zero value. -/
def GjsonNumOnlyForNumbers (gjsonGet : String → String → GjsonResult) : Prop :=
  ∀ body path, (gjsonGet body path).Typ ≠ .Number → (gjsonGet body path).Num = .finite 0

/-- The duration of `interval` milliseconds in nanoseconds, as an exact
integer. -/
def intervalNanos (s : Session Cart Order PackageOrder) : Int :=
  s.interval * 1000000

/-! ## buildHeader and buildURLParams -/

/-- Go `(s *Session).buildHeader()`. `FormatFloat f fmt prec bitSize` is
`strconv.FormatFloat`. A nil `Address` makes the first statement panic: `none`. -/
def buildHeader (FormatFloat : Float64 → Char → Int → Int → String)
    (s : Session Cart Order PackageOrder) : Option Header :=
  match s.Address with
  | none => none
  | some address =>
    let header : Header := []
    let header := header.Set "ddmc-city-number" address.CityNumber
    let header := header.Set "ddmc-os-version" "undefined"
    let header := header.Set "ddmc-channel" "applet"
    let header := header.Set "ddmc-build-version" "2.82.0"
    let header := header.Set "ddmc-app-client-id" "4"
    let header := header.Set "ddmc-ip" ""
    let header := header.Set "ddmc-api-version" "9.49.2"
    let header := header.Set "ddmc-station-id" address.StationId
    let header := header.Set "ddmc-uid" s.UserID
    if h : address.Location.Location.length = 2 then
      let header := header.Set "ddmc-longitude"
        (FormatFloat address.Location.Location[0] 'f' (-1) 64)
      let header := header.Set "ddmc-latitude"
        (FormatFloat address.Location.Location[1] 'f' (-1) 64)
      some header
    else
      some header

/-- The eight parameters `buildURLParams` adds before it looks at the flag. -/
def baselineParams : Values :=
  let params : Values := []
  let params := params.Add "api_version" "9.49.0"
  let params := params.Add "app_version" "2.81.0"
  let params := params.Add "applet_source" ""
  let params := params.Add "app_client_id" "3"
  let params := params.Add "h5_source" ""
  let params := params.Add "sharer_uid" ""
  let params := params.Add "s_id" ""
  let params := params.Add "openid" ""
  params

/-- Go `(s *Session).buildURLParams(needAddress)`. With the flag set, a nil
`Address` makes the dereference panic: `none`. -/
def buildURLParams (s : Session Cart Order PackageOrder) (needAddress : Bool) :
    Option Values :=
  let params := baselineParams
  if needAddress then
    match s.Address with
    | none => none
    | some address =>
      let params := params.Add "station_id" address.StationId
      let params := params.Add "city_number" address.CityNumber
      some params
  else
    some params

/-- The eight baseline parameters and their values, as the specification lists
them. -/
def baselinePairs : List (String × String) :=
  [("api_version", "9.49.0"), ("app_version", "2.81.0"), ("applet_source", ""),
   ("app_client_id", "3"), ("h5_source", ""), ("sharer_uid", ""), ("s_id", ""),
   ("openid", "")]

/-! ## The selection workflow -/

/-- Go `map[string]AddressItem`, the result of `s.GetAddress()`; the order of
the entries is the order in which `range` visits them. -/
abbrev AddrMap := List (String × AddressItem)

/-- What a step of the workflow leaves behind: the returned error (`none` is
nil), the session afterwards, and the effects of the step. -/
structure ChooseOut (Cart Order PackageOrder : Type) where
  err : Option Error
  session : Session Cart Order PackageOrder
  trace : List Event

/-- The prompt of `chooseAddr`. -/
def addrSelect (addrMap : AddrMap) : Select :=
  { Message := "请选择收货地址"
    Options := addrMap.map (fun e => e.1)
    Default := none }

/-- Go `(s *Session).chooseAddr()`. `GetAddress` is the result of the call
`s.GetAddress()`, a method declared outside `session.go` (the address lookup:
a mapping from label to address, or an error). `AskOne sv` is the outcome of
`survey.AskOne(sv, ...)`: the chosen label, or an error. -/
def chooseAddr (GetAddress : Except String AddrMap)
    (AskOne : Select → Except String String)
    (s : Session Cart Order PackageOrder) : ChooseOut Cart Order PackageOrder :=
  match GetAddress with
  | .error err => ⟨some (.getAddressFailed err), s, [.lookedUpAddress]⟩
  | .ok addrMap =>
    let sv := addrSelect addrMap
    match AskOne sv with
    | .error err => ⟨some (.askAddressFailed err), s, [.lookedUpAddress, .asked sv]⟩
    | .ok addr =>
      match addrMap.lookup addr with
      | none => ⟨some .wrongAddress, s, [.lookedUpAddress, .asked sv]⟩
      | some address =>
        ⟨none, { s with Address := some address },
          [.lookedUpAddress, .asked sv,
            .loggedAddress address.Location.Address address.AddrDetail]⟩

/-- The constant `paymentAlipay`. -/
def paymentAlipay : String := "支付宝"

/-- The constant `paymentWechat`. -/
def paymentWechat : String := "微信"

/-- The prompt of `choosePay`. -/
def paySelect : Select :=
  { Message := "请选择支付方式"
    Options := [paymentWechat, paymentAlipay]
    Default := some paymentWechat }

/-- Go `(s *Session).choosePay()`. -/
def choosePay (AskOne : Select → Except String String)
    (s : Session Cart Order PackageOrder) : ChooseOut Cart Order PackageOrder :=
  let sv := paySelect
  match AskOne sv with
  | .error err => ⟨some (.askPayFailed err), s, [.asked sv]⟩
  | .ok payName =>
    if payName = paymentAlipay then
      ⟨none, { s with PayType := 2 }, [.asked sv]⟩
    else if payName = paymentWechat then
      ⟨none, { s with PayType := 4 }, [.asked sv]⟩
    else
      ⟨some (.unknownPay payName), s, [.asked sv]⟩

/-- The constant `cartModeAvailable`. -/
def cartModeAvailable : String := "结算所有有效商品(不包括换购)"

/-- The constant `cartModeAll`. -/
def cartModeAll : String := "结算所有勾选商品(包括换购)"

/-- The prompt of `chooseCartMode`. -/
def cartModeSelect : Select :=
  { Message := "请选择购物车商品结算模式"
    Options := [cartModeAvailable, cartModeAll]
    Default := some cartModeAvailable }

/-- Go `(s *Session).chooseCartMode()`. -/
def chooseCartMode (AskOne : Select → Except String String)
    (s : Session Cart Order PackageOrder) : ChooseOut Cart Order PackageOrder :=
  let sv := cartModeSelect
  match AskOne sv with
  | .error err => ⟨some (.askCartModeFailed err), s, [.asked sv]⟩
  | .ok cartDesc =>
    if cartDesc = cartModeAvailable then
      ⟨none, { s with CartMode := 1 }, [.asked sv]⟩
    else if cartDesc = cartModeAll then
      ⟨none, { s with CartMode := 2 }, [.asked sv]⟩
    else
      ⟨some (.unknownCartMode cartDesc), s, [.asked sv]⟩

/-- Go `(s *Session).Choose()`. -/
def Choose (GetAddress : Except String AddrMap)
    (AskOne : Select → Except String String)
    (s : Session Cart Order PackageOrder) : ChooseOut Cart Order PackageOrder :=
  let r1 := chooseAddr GetAddress AskOne s
  match r1.err with
  | some err => ⟨some err, r1.session, r1.trace⟩
  | none =>
    let r2 := choosePay AskOne r1.session
    match r2.err with
    | some err => ⟨some err, r2.session, r1.trace ++ r2.trace⟩
    | none =>
      let r3 := chooseCartMode AskOne r2.session
      match r3.err with
      | some err => ⟨some err, r3.session, r1.trace ++ r2.trace ++ r3.trace⟩
      | none => ⟨none, r3.session, r1.trace ++ r2.trace ++ r3.trace⟩

/-! ## Sample values -/

/-- What `gjson` reads on six sample bodies: a numeric `code` of `0`, `-3000`,
`-3100` or `-1`, a string `code`, and, for any other body or path, the zero
`Result` of a lookup that finds nothing. -/
def sampleGjson (body path : String) : GjsonResult :=
  if path != "code" then ⟨.Null, "", "", .finite 0⟩
  else if body = "\x7b\"code\":0\x7d" then ⟨.Number, "0", "", .ofInt 0⟩
  else if body = "\x7b\"code\":-3000\x7d" then ⟨.Number, "-3000", "", .ofInt (-3000)⟩
  else if body = "\x7b\"code\":-3100\x7d" then ⟨.Number, "-3100", "", .ofInt (-3100)⟩
  else if body = "\x7b\"code\":-1\x7d" then ⟨.Number, "-1", "", .ofInt (-1)⟩
  else if body = "\x7b\"code\":\"-3000\"\x7d" then ⟨.String, "\"-3000\"", "-3000", .finite 0⟩
  else ⟨.Null, "", "", .finite 0⟩

/-- A response with status 200 and envelope code 0. -/
def okResponse : Response := ⟨200, "\x7b\"code\":0\x7d"⟩

/-- A response with status 200 and the congestion code -3000. -/
def crowdedResponse : Response := ⟨200, "\x7b\"code\":-3000\x7d"⟩

/-- A response with status 200 and the partial-data code -3100. -/
def partialResponse : Response := ⟨200, "\x7b\"code\":-3100\x7d"⟩

/-- A response with status 200 and the unlisted code -1. -/
def unknownResponse : Response := ⟨200, "\x7b\"code\":-1\x7d"⟩

/-- A response with status 200 whose `code` is the string `-3000`. -/
def stringCodeResponse : Response := ⟨200, "\x7b\"code\":\"-3000\"\x7d"⟩

/-- A transport that answers congestion, then partial data, then success. -/
def twoRetriesThenOk : Nat → Except String Response
  | 0 => .ok crowdedResponse
  | 1 => .ok partialResponse
  | _ => .ok okResponse

/-- A transport that answers congestion once, then success. -/
def oneRetryThenOk : Nat → Except String Response
  | 0 => .ok crowdedResponse
  | _ => .ok okResponse

/-- A transport that answers congestion once, then an unlisted code. -/
def oneRetryThenUnknown : Nat → Except String Response
  | 0 => .ok crowdedResponse
  | _ => .ok unknownResponse

/-- A transport that always answers with a `code` that is a string. -/
def stringCodeTransport : Nat → Except String Response :=
  fun _ => .ok stringCodeResponse

/-- A session with a 500 ms retry interval. -/
def sampleSession : Session Unit Unit Unit := NewSession "abc123" 500 () () ()

/-- A session whose interval, in nanoseconds, does not fit in an int64. -/
def longIntervalSession : Session Unit Unit Unit :=
  NewSession "abc123" 9223372036855 () () ()

/-- The address of the end-to-end scenario: city 0571, station S1, coordinates
120.1 and 30.2. -/
def homeAddress : AddressItem :=
  { CityNumber := "0571"
    StationId := "S1"
    AddrDetail := "Room 101"
    Location := { Address := "Home", Location := [.finite (mkRat 1201 10), .finite (mkRat 302 10)] } }

/-- The sample session after `homeAddress` is chosen for user `u1`. -/
def homeSession : Session Unit Unit Unit :=
  { sampleSession with UserID := "u1", Address := some homeAddress }

/-- A stand-in for `strconv.FormatFloat` on the two sample coordinates. -/
def sampleFormatFloat (f : Float64) (_fmt : Char) (_prec _bitSize : Int) : String :=
  if f = .finite (mkRat 1201 10) then "120.1"
  else if f = .finite (mkRat 302 10) then "30.2"
  else "0"

/-- The address lookup of the end-to-end scenario: the label `Home`. -/
def sampleAddrMap : AddrMap := [("Home", homeAddress)]

/-- An operator who picks `Home`, the wechat option and the "available items
only" option. -/
def sampleAskOne (sv : Select) : Except String String :=
  if sv = paySelect then .ok paymentWechat
  else if sv = cartModeSelect then .ok cartModeAvailable
  else if sv = addrSelect sampleAddrMap then .ok "Home"
  else .error "interrupt"

/-- An operator who picks `Home` and then aborts the payment prompt. -/
def abortingAskOne (sv : Select) : Except String String :=
  if sv = addrSelect sampleAddrMap then .ok "Home"
  else .error "interrupt"

/-- A request no context is bound to yet. -/
def sampleRequest : Request := ⟨none, "cart"⟩

/-- A caller's context. -/
def sampleContext : Context := ⟨7⟩

/-! ## Theorems -/

theorem bindContext_none_bind (ctx : Option Context) (request : Request) :
    bindContext none (bindContext ctx request) = bindContext ctx request := rfl

theorem float_eq_excl (x : Float64) (a b : Int) (h : a ≠ b) (ha : x.eq (.ofInt a) = true) :
    x.eq (.ofInt b) = false := by
  cases x with
  | finite q =>
    simp only [Float64.eq, Float64.ofInt, decide_eq_true_eq, decide_eq_false_iff_not] at ha ⊢
    subst ha
    exact_mod_cast h
  | nan => simp [Float64.eq, Float64.ofInt]
  | inf n => simp [Float64.eq, Float64.ofInt]

theorem execute_success_step (s : Session Cart Order PackageOrder)
    (gjsonGet : String → String → GjsonResult) (transport : Nat → Except String Response)
    (fuel attempt : Nat) (ctx : Option Context) (request : Request) (method url : String)
    (resp : Response) (hT : transport attempt = .ok resp)
    (h : isSuccess gjsonGet (.ok resp) = true) :
    execute s gjsonGet transport (fuel + 1) attempt ctx request method url =
      some ⟨.ok resp, bindContext ctx request, [.sent (bindContext ctx request) method url]⟩ := by
  simp only [isSuccess, envelopeCode, Bool.and_eq_true, beq_iff_eq] at h
  simp [execute, hT, StatusOK, h.1, h.2]

theorem execute_fatal_step (s : Session Cart Order PackageOrder)
    (gjsonGet : String → String → GjsonResult) (transport : Nat → Except String Response)
    (fuel attempt : Nat) (ctx : Option Context) (request : Request) (method url : String)
    (h : isFatal gjsonGet (transport attempt) = true) :
    ∃ e, execute s gjsonGet transport (fuel + 1) attempt ctx request method url =
      some ⟨.error e, bindContext ctx request, [.sent (bindContext ctx request) method url]⟩ := by
  cases hT : transport attempt with
  | error err => exact ⟨.requestFailed err, by simp [execute, hT]⟩
  | ok resp =>
    rw [hT] at h
    by_cases hs : resp.StatusCode = 200
    · simp only [isFatal, envelopeCode, hs, bne_self_eq_false, Bool.false_or, Bool.not_eq_true',
        Bool.or_eq_false_iff] at h
      exact ⟨.unknownCode resp.Body, by simp [execute, hT, StatusOK, hs, h.1.1.1, h.1.1.2, h.1.2, h.2]⟩
    · exact ⟨.statusCode resp.StatusCode resp.Body, by simp [execute, hT, StatusOK, hs]⟩

theorem execute_retry_step (s : Session Cart Order PackageOrder)
    (gjsonGet : String → String → GjsonResult) (transport : Nat → Except String Response)
    (fuel attempt : Nat) (ctx : Option Context) (request : Request) (method url : String)
    (h : isRetryable gjsonGet (transport attempt) = true) :
    ∃ w, sends [w] = [] ∧ sleeps [w] = [] ∧
      execute s gjsonGet transport (fuel + 1) attempt ctx request method url =
      (execute s gjsonGet transport fuel (attempt + 1) none (bindContext ctx request) method url).map
        (fun out => { out with trace :=
          [.sent (bindContext ctx request) method url, w, .warnedRetry s.interval,
            .slept (wrapInt64 (s.interval * Millisecond))] ++ out.trace }) := by
  cases hT : transport attempt with
  | error err => rw [hT] at h; simp [isRetryable] at h
  | ok resp =>
    rw [hT] at h
    simp only [isRetryable, envelopeCode, Bool.and_eq_true, beq_iff_eq, Bool.or_eq_true] at h
    obtain ⟨hs, hc⟩ := h
    rcases hc with (hc | hc) | hc
    · have h0 := float_eq_excl _ (-3000) 0 (by decide) hc
      exact ⟨.warnedCrowded (gjsonGet resp.Body "code").Num resp.Body, rfl, rfl, by simp [execute, hT, StatusOK, hs, hc, h0]⟩
    · have h0 := float_eq_excl _ (-3001) 0 (by decide) hc
      exact ⟨.warnedCrowded (gjsonGet resp.Body "code").Num resp.Body, rfl, rfl, by simp [execute, hT, StatusOK, hs, hc, h0]⟩
    · have h0 := float_eq_excl _ (-3100) 0 (by decide) hc
      have h1 := float_eq_excl _ (-3100) (-3000) (by decide) hc
      have h2 := float_eq_excl _ (-3100) (-3001) (by decide) hc
      exact ⟨.warnedPartial resp.Body, rfl, rfl, by simp [execute, hT, StatusOK, hs, hc, h0, h1, h2]⟩

theorem sends_append (a b : List Event) : sends (a ++ b) = sends a ++ sends b := by
  induction a with
  | nil => rfl
  | cons e a ih => cases e <;> simp [sends, ih]

theorem sleeps_append (a b : List Event) : sleeps (a ++ b) = sleeps a ++ sleeps b := by
  induction a with
  | nil => rfl
  | cons e a ih => cases e <;> simp [sleeps, ih]

theorem execute_bind (s : Session Cart Order PackageOrder)
    (gjsonGet : String → String → GjsonResult) (transport : Nat → Except String Response)
    (fuel attempt : Nat) (ctx : Option Context) (request : Request) (method url : String) :
    execute s gjsonGet transport fuel attempt none (bindContext ctx request) method url =
      execute s gjsonGet transport fuel attempt ctx request method url := by
  cases fuel with
  | zero => simp [execute]
  | succ n => simp [execute, bindContext_none_bind]

theorem execute_retries (s : Session Cart Order PackageOrder)
    (gjsonGet : String → String → GjsonResult) (transport : Nat → Except String Response)
    (method url : String) (n : Nat) :
    ∀ (fuel attempt : Nat) (ctx : Option Context) (request : Request),
      (∀ i, i < n → isRetryable gjsonGet (transport (attempt + i)) = true) →
      ∃ pre : List Event,
        pre.length = 4 * n ∧
        sends pre = List.replicate n (bindContext ctx request) ∧
        sleeps pre = List.replicate n (wrapInt64 (s.interval * Millisecond)) ∧
        execute s gjsonGet transport (fuel + n) attempt ctx request method url =
          (execute s gjsonGet transport fuel (attempt + n) none
              (bindContext ctx request) method url).map
            (fun out => { out with trace := pre ++ out.trace }) := by
  induction n with
  | zero =>
    intro fuel attempt ctx request _
    refine ⟨[], rfl, rfl, rfl, ?_⟩
    rw [execute_bind]
    cases execute s gjsonGet transport fuel attempt ctx request method url <;> simp
  | succ n ih =>
    intro fuel attempt ctx request h
    obtain ⟨w, hw1, hw2, hw⟩ := execute_retry_step s gjsonGet transport (fuel + n) attempt ctx request
      method url (by simpa using h 0 (Nat.succ_pos n))
    obtain ⟨pre, hl, hs, hz, he⟩ := ih fuel (attempt + 1) none (bindContext ctx request)
      (fun i hi => by
        have := h (i + 1) (Nat.succ_lt_succ hi)
        rwa [show attempt + (i + 1) = attempt + 1 + i by omega] at this)
    rw [bindContext_none_bind] at hs he
    refine ⟨[.sent (bindContext ctx request) method url, w, .warnedRetry s.interval,
        .slept (wrapInt64 (s.interval * Millisecond))] ++ pre, ?_, ?_, ?_, ?_⟩
    · simp only [List.length_append, List.length_cons, List.length_nil, hl]
      omega
    · have : sends ([Event.sent (bindContext ctx request) method url] ++ [w] ++
          [Event.warnedRetry s.interval, Event.slept (wrapInt64 (s.interval * Millisecond))] ++ pre)
          = List.replicate (n + 1) (bindContext ctx request) := by
        rw [sends_append, sends_append, sends_append, hw1, hs]
        simp [sends, List.replicate_succ]
      simpa using this
    · have : sleeps ([Event.sent (bindContext ctx request) method url] ++ [w] ++
          [Event.warnedRetry s.interval, Event.slept (wrapInt64 (s.interval * Millisecond))] ++ pre)
          = List.replicate (n + 1) (wrapInt64 (s.interval * Millisecond)) := by
        rw [sleeps_append, sleeps_append, sleeps_append, hw2, hz]
        simp [sleeps, List.replicate_succ]
      simpa using this
    · rw [show fuel + (n + 1) = fuel + n + 1 by omega, hw, he,
        show attempt + 1 + n = attempt + (n + 1) by omega]
      cases execute s gjsonGet transport fuel (attempt + (n + 1)) none
        (bindContext ctx request) method url <;> simp

theorem wrapInt64_of_fits (z : Int) (h1 : -9223372036854775808 ≤ z)
    (h2 : z ≤ 9223372036854775807) : wrapInt64 z = z := by
  unfold wrapInt64
  norm_num
  rw [Int.emod_eq_of_lt (by omega) (by omega)]
  omega

theorem not_retryable_cases (gjsonGet : String → String → GjsonResult)
    (a : Except String Response) (h : isRetryable gjsonGet a = false) :
    isFatal gjsonGet a = true ∨
      ∃ resp, a = .ok resp ∧ isSuccess gjsonGet (.ok resp) = true := by
  cases a with
  | error err => left; rfl
  | ok resp =>
    by_cases h0 : (envelopeCode gjsonGet resp).eq (.ofInt 0) = true
    · by_cases hs : resp.StatusCode = 200
      · right; exact ⟨resp, rfl, by simp [isSuccess, hs, h0]⟩
      · left; simp [isFatal, hs]
    · left
      simp only [isRetryable, Bool.and_eq_false_imp, beq_iff_eq, Bool.or_eq_false_iff] at h
      by_cases hs : resp.StatusCode = 200
      · have := h hs
        simp only [Bool.not_eq_true] at h0
        simp [isFatal, hs, h0, this.1.1, this.1.2, this.2]
      · simp [isFatal, hs]

/-- Claim C3. When the transport answers an attempt with HTTP 200 and envelope
code 0, `execute` returns exactly that response with a nil error; the call sends
the request once (with the context bound when one is given) and never sleeps.
The first attempt is `attempt = 0`. -/
theorem execute_code_zero_returns_response (s : Session Cart Order PackageOrder)
    (gjsonGet : String → String → GjsonResult) (transport : Nat → Except String Response)
    (fuel attempt : Nat) (ctx : Option Context) (request : Request) (method url : String)
    (resp : Response) (hT : transport attempt = .ok resp)
    (hStatus : resp.StatusCode = 200)
    (hCode : (envelopeCode gjsonGet resp).eq (.ofInt 0) = true) :
    ∃ out, execute s gjsonGet transport (fuel + 1) attempt ctx request method url = some out ∧
      out.result = .ok resp ∧
      out.trace = [.sent (bindContext ctx request) method url] ∧
      (sends out.trace).length = 1 ∧ sleeps out.trace = [] := by
  refine ⟨_, execute_success_step s gjsonGet transport fuel attempt ctx request method url resp hT
    (by simp [isSuccess, hStatus, hCode]), rfl, rfl, rfl, rfl⟩

theorem execute_code_zero_returns_response_witness :
    ∃ out, execute sampleSession sampleGjson (fun _ => .ok okResponse) 1 0
        (some sampleContext) sampleRequest "GET" "https://maicai.api.ddxq.mobi/cart/index" =
          some out ∧
      out.result = .ok okResponse ∧
      out.trace = [.sent (bindContext (some sampleContext) sampleRequest) "GET"
        "https://maicai.api.ddxq.mobi/cart/index"] ∧
      (sends out.trace).length = 1 ∧ sleeps out.trace = [] :=
  execute_code_zero_returns_response sampleSession sampleGjson (fun _ => .ok okResponse) 0 0
    (some sampleContext) sampleRequest "GET" "https://maicai.api.ddxq.mobi/cart/index"
    okResponse rfl (by decide) (by decide)

/-- Claim C1, as the code has it. For a session interval between
-9223372036854 and 9223372036854 ms (so that the interval in nanoseconds fits in
an int64) and every `k ≥ 1`: when the transport answers the first `k` attempts
with HTTP 200 and an envelope code in -3000, -3001, -3100 and attempt `k + 1`
with HTTP 200 and code 0, `execute` returns that last response with a nil
error, given fuel for `k + 1` nested calls; it has sent the request `k + 1`
times and slept `k` times, each time for the interval in milliseconds. -/
theorem execute_retries_until_success (s : Session Cart Order PackageOrder)
    (gjsonGet : String → String → GjsonResult) (transport : Nat → Except String Response)
    (fuel k : Nat) (ctx : Option Context) (request : Request) (method url : String)
    (resp : Response)
    (hLow : -9223372036854 ≤ s.interval) (hHigh : s.interval ≤ 9223372036854)
    (_hk : 1 ≤ k)
    (hRetry : ∀ i, i < k → isRetryable gjsonGet (transport i) = true)
    (hLast : transport k = .ok resp)
    (hStatus : resp.StatusCode = 200)
    (hCode : (envelopeCode gjsonGet resp).eq (.ofInt 0) = true) :
    ∃ out, execute s gjsonGet transport (fuel + 1 + k) 0 ctx request method url = some out ∧
      out.result = .ok resp ∧
      sends out.trace = List.replicate (k + 1) (bindContext ctx request) ∧
      sleeps out.trace = List.replicate k (intervalNanos s) := by
  obtain ⟨pre, _, hs, hz, he⟩ := execute_retries s gjsonGet transport method url k (fuel + 1) 0 ctx
    request (fun i hi => by simpa using hRetry i hi)
  have hlast := execute_success_step s gjsonGet transport fuel (0 + k) none
    (bindContext ctx request) method url resp (by simpa using hLast)
    (by simp [isSuccess, hStatus, hCode])
  rw [hlast] at he
  have hw : wrapInt64 (s.interval * Millisecond) = intervalNanos s := by
    unfold intervalNanos Millisecond
    exact wrapInt64_of_fits _ (by omega) (by omega)
  refine ⟨_, he, rfl, ?_, ?_⟩
  · simp only [Option.map_some', sends_append, hs, sends, bindContext_none_bind]
    rw [List.replicate_succ']
  · simp only [Option.map_some', sleeps_append, hz, sleeps, hw]
    simp

theorem execute_retries_until_success_witness :
    ∃ out, execute sampleSession sampleGjson twoRetriesThenOk (0 + 1 + 2) 0
        (some sampleContext) sampleRequest "GET" "https://maicai.api.ddxq.mobi/cart/index" =
          some out ∧
      out.result = .ok okResponse ∧
      sends out.trace = List.replicate (2 + 1) (bindContext (some sampleContext) sampleRequest) ∧
      sleeps out.trace = List.replicate 2 (intervalNanos sampleSession) :=
  execute_retries_until_success sampleSession sampleGjson twoRetriesThenOk 0 2
    (some sampleContext) sampleRequest "GET" "https://maicai.api.ddxq.mobi/cart/index"
    okResponse (by decide) (by decide) (by decide) (by decide) rfl (by decide) (by decide)

/-- Claim C1 as stated fails for a long interval: with an interval of
9223372036855 ms, one congestion answer and then code 0, the one sleep is for
-9223372036854551616 ns (the int64 product wrapped around), not for the
interval in milliseconds. -/
theorem execute_sleep_wraps_for_long_interval :
    isRetryable sampleGjson (oneRetryThenOk 0) = true ∧
    isSuccess sampleGjson (oneRetryThenOk 1) = true ∧
    (execute longIntervalSession sampleGjson oneRetryThenOk 2 0 none sampleRequest "GET"
        "https://maicai.api.ddxq.mobi/cart/index").map (fun out => sleeps out.trace) =
      some [-9223372036854551616] ∧
    intervalNanos longIntervalSession = 9223372036855000000 ∧
    [-9223372036854551616] ≠ List.replicate 1 (intervalNanos longIntervalSession) := by
  refine ⟨by decide, by decide, by decide, by decide, by decide⟩

/-- Claim C2. When the transport reports a failure, or answers with an HTTP
status other than 200, or with status 200 and an envelope code outside
0, -3000, -3001, -3100, at an attempt reached after `n` retried attempts,
`execute` returns an error and no response; the trace ends with the send of
that attempt, so nothing is slept or sent after it. The trace before it holds
four events for each of the `n` retried attempts, among them `n` sends and `n`
sleeps; for `n = 0`, the first attempt, it is empty and the request is sent
exactly once. -/
theorem execute_fatal_without_retry (s : Session Cart Order PackageOrder)
    (gjsonGet : String → String → GjsonResult) (transport : Nat → Except String Response)
    (fuel n : Nat) (ctx : Option Context) (request : Request) (method url : String)
    (hRetry : ∀ i, i < n → isRetryable gjsonGet (transport i) = true)
    (hFatal : isFatal gjsonGet (transport n) = true) :
    ∃ err pre, execute s gjsonGet transport (fuel + 1 + n) 0 ctx request method url =
        some ⟨.error err, bindContext ctx request,
          pre ++ [.sent (bindContext ctx request) method url]⟩ ∧
      pre.length = 4 * n ∧ (sends pre).length = n ∧ (sleeps pre).length = n := by
  obtain ⟨pre, hl, hs, hz, he⟩ := execute_retries s gjsonGet transport method url n (fuel + 1) 0 ctx
    request (fun i hi => by simpa using hRetry i hi)
  obtain ⟨err, hlast⟩ := execute_fatal_step s gjsonGet transport fuel (0 + n) none
    (bindContext ctx request) method url (by simpa using hFatal)
  rw [hlast] at he
  exact ⟨err, pre, by simpa [bindContext_none_bind] using he, hl, by simp [hs], by simp [hz]⟩

theorem execute_fatal_without_retry_witness :
    ∃ err pre, execute sampleSession sampleGjson oneRetryThenUnknown (0 + 1 + 1) 0
        (some sampleContext) sampleRequest "GET" "https://maicai.api.ddxq.mobi/cart/index" =
        some ⟨.error err, bindContext (some sampleContext) sampleRequest,
          pre ++ [.sent (bindContext (some sampleContext) sampleRequest) "GET"
            "https://maicai.api.ddxq.mobi/cart/index"]⟩ ∧
      pre.length = 4 * 1 ∧ (sends pre).length = 1 ∧ (sleeps pre).length = 1 :=
  execute_fatal_without_retry sampleSession sampleGjson oneRetryThenUnknown 0 1
    (some sampleContext) sampleRequest "GET" "https://maicai.api.ddxq.mobi/cart/index"
    (by decide) (by decide)

/-- Claim C4 as stated fails: called with a context, answered with congestion
and then code 0, `execute` sends two requests, and the second one, the retry,
is bound to the caller's context as the first one is. -/
theorem execute_retry_still_bound :
    isRetryable sampleGjson (oneRetryThenOk 0) = true ∧
    (execute sampleSession sampleGjson oneRetryThenOk 2 0 (some sampleContext) sampleRequest
        "GET" "https://maicai.api.ddxq.mobi/cart/index").map
        (fun out => (sends out.trace).map (fun q => q.ctx)) =
      some [some sampleContext, some sampleContext] := by
  refine ⟨by decide, by decide⟩

/-- Claim C4, as the code has it. Called with a non-nil context `c`, `execute`
binds `c` to the request on the first attempt. A retry passes nil, so nothing is
bound again, and the request object, which is the same one, keeps `c`: in a run
of `n` retried attempts and a last attempt that is not retried, each of the
`n + 1` requests sent is the request with `c` bound, and the caller's request
object carries `c` afterwards. -/
theorem execute_context_stays_bound (s : Session Cart Order PackageOrder)
    (gjsonGet : String → String → GjsonResult) (transport : Nat → Except String Response)
    (fuel n : Nat) (c : Context) (request : Request) (method url : String)
    (hRetry : ∀ i, i < n → isRetryable gjsonGet (transport i) = true)
    (hEnd : isRetryable gjsonGet (transport n) = false) :
    ∃ out, execute s gjsonGet transport (fuel + 1 + n) 0 (some c) request method url =
        some out ∧
      sends out.trace = List.replicate (n + 1) (request.SetContext c) ∧
      (∀ q, q ∈ sends out.trace → q.ctx = some c) ∧
      out.request = request.SetContext c := by
  obtain ⟨pre, _, hs, _, he⟩ := execute_retries s gjsonGet transport method url n (fuel + 1) 0
    (some c) request (fun i hi => by simpa using hRetry i hi)
  have key : ∃ r, execute s gjsonGet transport (fuel + 1) (0 + n) none
      (bindContext (some c) request) method url =
      some ⟨r, bindContext (some c) request,
        [.sent (bindContext (some c) request) method url]⟩ := by
    rcases not_retryable_cases gjsonGet (transport n) hEnd with hf | ⟨resp, hT, hS⟩
    · obtain ⟨err, h⟩ := execute_fatal_step s gjsonGet transport fuel (0 + n) none
        (bindContext (some c) request) method url (by simpa using hf)
      exact ⟨_, h⟩
    · exact ⟨_, execute_success_step s gjsonGet transport fuel (0 + n) none
        (bindContext (some c) request) method url resp (by simpa using hT) hS⟩
  obtain ⟨r, hr⟩ := key
  rw [hr] at he
  have hsend : sends (pre ++ [Event.sent (bindContext (some c) request) method url]) =
      List.replicate (n + 1) (request.SetContext c) := by
    rw [sends_append, hs, List.replicate_succ']
    rfl
  refine ⟨_, he, hsend, ?_, rfl⟩
  intro q hq
  have hq2 : q ∈ List.replicate (n + 1) (request.SetContext c) := by
    rw [← hsend]
    exact hq
  rw [List.eq_of_mem_replicate hq2]
  rfl

theorem execute_context_stays_bound_witness :
    ∃ out, execute sampleSession sampleGjson twoRetriesThenOk (0 + 1 + 2) 0
        (some sampleContext) sampleRequest "GET" "https://maicai.api.ddxq.mobi/cart/index" =
        some out ∧
      sends out.trace = List.replicate (2 + 1) (sampleRequest.SetContext sampleContext) ∧
      (∀ q, q ∈ sends out.trace → q.ctx = some sampleContext) ∧
      out.request = sampleRequest.SetContext sampleContext :=
  execute_context_stays_bound sampleSession sampleGjson twoRetriesThenOk 0 2 sampleContext
    sampleRequest "GET" "https://maicai.api.ddxq.mobi/cart/index" (by decide) (by decide)

theorem sampleGjson_num_only_for_numbers : GjsonNumOnlyForNumbers sampleGjson := by
  intro body path h
  unfold sampleGjson at h ⊢
  split_ifs at h ⊢ <;> first | rfl | exact absurd rfl h

/-- Claim C10. For a response with HTTP status 200 in whose body `gjson` finds no
number at `code` (the result is not of type `Number`: the field is missing, the
body is not read as JSON, or `code` is a string, a boolean or null), the code
`execute` reads is the float64 zero, and `execute` returns that response as a
success on that attempt: nil error, one send, no sleep, no retry. `gjson` is
taken to fill `Num` for numbers only. -/
theorem execute_missing_code_is_success (s : Session Cart Order PackageOrder)
    (gjsonGet : String → String → GjsonResult) (transport : Nat → Except String Response)
    (fuel attempt : Nat) (ctx : Option Context) (request : Request) (method url : String)
    (resp : Response)
    (hGjson : GjsonNumOnlyForNumbers gjsonGet)
    (hT : transport attempt = .ok resp)
    (hStatus : resp.StatusCode = 200)
    (hNoNumber : (gjsonGet resp.Body "code").Typ ≠ .Number) :
    envelopeCode gjsonGet resp = .finite 0 ∧
    execute s gjsonGet transport (fuel + 1) attempt ctx request method url =
      some ⟨.ok resp, bindContext ctx request,
        [.sent (bindContext ctx request) method url]⟩ := by
  have h0 : envelopeCode gjsonGet resp = .finite 0 := hGjson _ _ hNoNumber
  refine ⟨h0, execute_success_step s gjsonGet transport fuel attempt ctx request method url
    resp hT ?_⟩
  simp [isSuccess, hStatus, h0, Float64.eq, Float64.ofInt]

theorem execute_missing_code_is_success_witness :
    envelopeCode sampleGjson stringCodeResponse = .finite 0 ∧
    execute sampleSession sampleGjson stringCodeTransport (0 + 1) 0 none sampleRequest "GET"
        "https://maicai.api.ddxq.mobi/cart/index" =
      some ⟨.ok stringCodeResponse, bindContext none sampleRequest,
        [.sent (bindContext none sampleRequest) "GET"
          "https://maicai.api.ddxq.mobi/cart/index"]⟩ :=
  execute_missing_code_is_success sampleSession sampleGjson stringCodeTransport 0 0 none
    sampleRequest "GET" "https://maicai.api.ddxq.mobi/cart/index" stringCodeResponse
    sampleGjson_num_only_for_numbers rfl (by decide) (by decide)

theorem hasPrefix_append (p c : String) : HasPrefix (p ++ c) p = true := by
  simp [HasPrefix, String.data_append]

theorem normalizeCookie_of_hasPrefix (c : String)
    (h : HasPrefix c "DDXQSESSID=" = true) : normalizeCookie c = c := by
  simp [normalizeCookie, h]

theorem newSession_cookie_lookup (cookie : String) (interval : Int)
    (cart : Cart) (order : Order) (packageOrder : PackageOrder) :
    (NewSession cookie interval cart order packageOrder).client.Header.Lookup "cookie" =
      some [normalizeCookie cookie] := by
  simp [NewSession, newSessionHeader, Header.Set, Header.Lookup, List.lookup]

/-- Claim C5. The cookie header `NewSession` stores is the cookie itself when it
starts with `DDXQSESSID=` and `DDXQSESSID=` followed by the cookie otherwise.
The stored value always starts with that text, and a session built from a
stored value stores the same value again. The cookie `abc123` is stored as
`DDXQSESSID=abc123`. -/
theorem NewSession_cookie_normalized (cookie : String) (interval interval2 : Int)
    (cart : Cart) (order : Order) (packageOrder : PackageOrder) :
    (NewSession cookie interval cart order packageOrder).client.Header.Lookup "cookie" =
      some [if HasPrefix cookie "DDXQSESSID=" then cookie else "DDXQSESSID=" ++ cookie] ∧
    HasPrefix ((NewSession cookie interval cart order packageOrder).client.Header.Get "cookie")
      "DDXQSESSID=" = true ∧
    (NewSession ((NewSession cookie interval cart order packageOrder).client.Header.Get "cookie")
        interval2 cart order packageOrder).client.Header.Get "cookie" =
      (NewSession cookie interval cart order packageOrder).client.Header.Get "cookie" ∧
    (NewSession "abc123" interval cart order packageOrder).client.Header.Lookup "cookie" =
      some ["DDXQSESSID=abc123"] := by
  have hget : ∀ (c : String) (i : Int),
      (NewSession c i cart order packageOrder).client.Header.Get "cookie" = normalizeCookie c := by
    intro c i
    have := newSession_cookie_lookup c i cart order packageOrder
    simp only [Header.Lookup] at this
    simp [Header.Get, this]
  have hpre : HasPrefix (normalizeCookie cookie) "DDXQSESSID=" = true := by
    unfold normalizeCookie
    by_cases h : HasPrefix cookie "DDXQSESSID=" = true
    · simp [h]
    · simp only [Bool.not_eq_true] at h
      simp [h, hasPrefix_append]
  refine ⟨?_, ?_, ?_, ?_⟩
  · rw [newSession_cookie_lookup]
    by_cases h : HasPrefix cookie "DDXQSESSID=" = true <;> simp [normalizeCookie, h]
  · rw [hget]
    exact hpre
  · rw [hget, hget]
    exact normalizeCookie_of_hasPrefix _ hpre
  · rw [newSession_cookie_lookup]
    decide

/-- Claim C6. For a session with a non-nil address, `buildHeader` returns a
header set that has `ddmc-longitude` and `ddmc-latitude` exactly when the
coordinate list of the address has length 2. Then `ddmc-longitude` is the text
`FormatFloat` gives for element 0 and `ddmc-latitude` the text for element 1,
with format `f`, precision -1 and bit size 64. In both cases `ddmc-city-number`,
`ddmc-station-id` and `ddmc-uid` carry the city code and the station code of the
address and the user id of the session. -/
theorem buildHeader_coordinates (FormatFloat : Float64 → Char → Int → Int → String)
    (s : Session Cart Order PackageOrder) (address : AddressItem)
    (hAddr : s.Address = some address) :
    ∃ header, buildHeader FormatFloat s = some header ∧
      (header.Has "ddmc-longitude" = true ↔ address.Location.Location.length = 2) ∧
      (header.Has "ddmc-latitude" = true ↔ address.Location.Location.length = 2) ∧
      (∀ lon lat, address.Location.Location = [lon, lat] →
        header.Lookup "ddmc-longitude" = some [FormatFloat lon 'f' (-1) 64] ∧
        header.Lookup "ddmc-latitude" = some [FormatFloat lat 'f' (-1) 64]) ∧
      header.Lookup "ddmc-city-number" = some [address.CityNumber] ∧
      header.Lookup "ddmc-station-id" = some [address.StationId] ∧
      header.Lookup "ddmc-uid" = some [s.UserID] := by
  obtain ⟨city, station, detail, ⟨addr, loc⟩⟩ := address
  by_cases h2 : loc.length = 2
  · obtain ⟨lon, lat, rfl⟩ := List.length_eq_two.mp h2
    refine ⟨_, by simp [buildHeader, hAddr]; rfl, ?_, ?_, ?_, ?_, ?_, ?_⟩ <;>
      simp [Header.Set, Header.Has, Header.Lookup, List.lookup]
  · refine ⟨_, by simp [buildHeader, hAddr, h2]; rfl, ?_, ?_, ?_, ?_, ?_, ?_⟩ <;>
      simp [Header.Set, Header.Has, Header.Lookup, List.lookup, h2]
    intro a b hab
    subst hab
    simp at h2

theorem buildHeader_coordinates_witness :
    ∃ header, buildHeader sampleFormatFloat homeSession = some header ∧
      (header.Has "ddmc-longitude" = true ↔ homeAddress.Location.Location.length = 2) ∧
      (header.Has "ddmc-latitude" = true ↔ homeAddress.Location.Location.length = 2) ∧
      (∀ lon lat, homeAddress.Location.Location = [lon, lat] →
        header.Lookup "ddmc-longitude" = some [sampleFormatFloat lon 'f' (-1) 64] ∧
        header.Lookup "ddmc-latitude" = some [sampleFormatFloat lat 'f' (-1) 64]) ∧
      header.Lookup "ddmc-city-number" = some [homeAddress.CityNumber] ∧
      header.Lookup "ddmc-station-id" = some [homeAddress.StationId] ∧
      header.Lookup "ddmc-uid" = some [homeSession.UserID] :=
  buildHeader_coordinates sampleFormatFloat homeSession homeAddress rfl

theorem baseline_lookup (kv : String × String) (h : kv ∈ baselinePairs) :
    baselineParams.Lookup kv.1 = some [kv.2] := by
  simp only [baselinePairs, List.mem_cons, List.mem_singleton, List.not_mem_nil, or_false] at h
  rcases h with h | h | h | h | h | h | h | h <;> subst h <;> decide

/-- Claim C7. With the flag false, `buildURLParams` returns for every session,
also one with no address, a parameter set without `station_id` and
`city_number`. With the flag true and an address set, it returns a parameter set
in which `station_id` and `city_number` are the station code and the city code
of the address. In both, the eight baseline parameters are present with the same
values. So a returned set has the two keys exactly when the flag is true. -/
theorem buildURLParams_address_iff_flag (s : Session Cart Order PackageOrder) :
    (∃ params, buildURLParams s false = some params ∧
      params.Has "station_id" = false ∧ params.Has "city_number" = false ∧
      ∀ kv, kv ∈ baselinePairs → params.Lookup kv.1 = some [kv.2]) ∧
    (∀ address, s.Address = some address →
      ∃ params, buildURLParams s true = some params ∧
        params.Lookup "station_id" = some [address.StationId] ∧
        params.Lookup "city_number" = some [address.CityNumber] ∧
        ∀ kv, kv ∈ baselinePairs → params.Lookup kv.1 = some [kv.2]) ∧
    (∀ needAddress params, buildURLParams s needAddress = some params →
      (params.Has "station_id" = true ↔ needAddress = true) ∧
      (params.Has "city_number" = true ↔ needAddress = true)) := by
  have hfalse : buildURLParams s false = some baselineParams := by simp [buildURLParams]
  have htrue : ∀ address, s.Address = some address →
      buildURLParams s true =
        some ((baselineParams.Add "station_id" address.StationId).Add "city_number"
          address.CityNumber) := by
    intro address h
    simp [buildURLParams, h]
  have hst : ∀ a b : String,
      ((baselineParams.Add "station_id" a).Add "city_number" b).Lookup "station_id" =
        some [a] := by
    intro a b
    simp [baselineParams, Values.Add, Values.Lookup, List.lookup]
  have hct : ∀ a b : String,
      ((baselineParams.Add "station_id" a).Add "city_number" b).Lookup "city_number" =
        some [b] := by
    intro a b
    simp [baselineParams, Values.Add, Values.Lookup, List.lookup]
  have hbase : ∀ (a b : String) (kv : String × String), kv ∈ baselinePairs →
      ((baselineParams.Add "station_id" a).Add "city_number" b).Lookup kv.1 =
        some [kv.2] := by
    intro a b kv h
    simp only [baselinePairs, List.mem_cons, List.mem_singleton, List.not_mem_nil,
      or_false] at h
    rcases h with h | h | h | h | h | h | h | h <;> subst h <;>
      simp [baselineParams, Values.Add, Values.Lookup, List.lookup]
  refine ⟨⟨_, hfalse, by decide, by decide, baseline_lookup⟩, ?_, ?_⟩
  · intro address h
    exact ⟨_, htrue address h, hst _ _, hct _ _, hbase _ _⟩
  · intro needAddress params h
    cases needAddress with
    | false =>
      rw [hfalse] at h
      cases h
      exact ⟨by decide, by decide⟩
    | true =>
      cases hA : s.Address with
      | none => simp [buildURLParams, hA] at h
      | some address =>
        rw [htrue address hA] at h
        cases h
        have h1 := hst address.StationId address.CityNumber
        have h2 := hct address.StationId address.CityNumber
        unfold Values.Lookup at h1 h2
        unfold Values.Has
        rw [h1, h2]
        simp

theorem buildURLParams_address_iff_flag_witness :
    (∃ params, buildURLParams homeSession false = some params ∧
      params.Has "station_id" = false ∧ params.Has "city_number" = false ∧
      ∀ kv, kv ∈ baselinePairs → params.Lookup kv.1 = some [kv.2]) ∧
    (∃ params, buildURLParams homeSession true = some params ∧
        params.Lookup "station_id" = some ["S1"] ∧
        params.Lookup "city_number" = some ["0571"] ∧
        ∀ kv, kv ∈ baselinePairs → params.Lookup kv.1 = some [kv.2]) ∧
    (∃ params, buildURLParams sampleSession false = some params) :=
  ⟨(buildURLParams_address_iff_flag homeSession).1,
    (buildURLParams_address_iff_flag homeSession).2.1 homeAddress rfl,
    ⟨_, (buildURLParams_address_iff_flag sampleSession).1.choose_spec.1⟩⟩

/-- Claim C9. The payment step and the cart-mode step are label-to-code tables.
For the label the prompt returns, `choosePay` sets `PayType` to 4 for the wechat
label and to 2 for the alipay label, and for any other label returns the
unrecognized-payment error with the session unchanged. `chooseCartMode` sets
`CartMode` to 1 for the "available items only" label and to 2 for the "all
checked items" label, and for any other label returns an error with the session
unchanged. No other session field changes, and each step asks its one prompt. -/
theorem choosePay_chooseCartMode_tables (AskOne : Select → Except String String)
    (s : Session Cart Order PackageOrder) (label : String) :
    (AskOne paySelect = .ok label →
      (label = paymentWechat →
        choosePay AskOne s = ⟨none, { s with PayType := 4 }, [.asked paySelect]⟩) ∧
      (label = paymentAlipay →
        choosePay AskOne s = ⟨none, { s with PayType := 2 }, [.asked paySelect]⟩) ∧
      (label ≠ paymentWechat → label ≠ paymentAlipay →
        choosePay AskOne s = ⟨some (.unknownPay label), s, [.asked paySelect]⟩)) ∧
    (AskOne cartModeSelect = .ok label →
      (label = cartModeAvailable →
        chooseCartMode AskOne s =
          ⟨none, { s with CartMode := 1 }, [.asked cartModeSelect]⟩) ∧
      (label = cartModeAll →
        chooseCartMode AskOne s =
          ⟨none, { s with CartMode := 2 }, [.asked cartModeSelect]⟩) ∧
      (label ≠ cartModeAvailable → label ≠ cartModeAll →
        chooseCartMode AskOne s =
          ⟨some (.unknownCartMode label), s, [.asked cartModeSelect]⟩)) := by
  refine ⟨fun h => ⟨?_, ?_, ?_⟩, fun h => ⟨?_, ?_, ?_⟩⟩
  · intro hl
    subst hl
    have : paymentWechat ≠ paymentAlipay := by decide
    simp [choosePay, h, this]
  · intro hl
    subst hl
    simp [choosePay, h]
  · intro h1 h2
    simp [choosePay, h, h1, h2]
  · intro hl
    subst hl
    simp [chooseCartMode, h]
  · intro hl
    subst hl
    have : cartModeAll ≠ cartModeAvailable := by decide
    simp [chooseCartMode, h, this]
  · intro h1 h2
    simp [chooseCartMode, h, h1, h2]

theorem choosePay_chooseCartMode_tables_witness :
    choosePay sampleAskOne sampleSession =
      ⟨none, { sampleSession with PayType := 4 }, [.asked paySelect]⟩ ∧
    chooseCartMode sampleAskOne sampleSession =
      ⟨none, { sampleSession with CartMode := 1 }, [.asked cartModeSelect]⟩ ∧
    choosePay (fun _ => .ok "cash") sampleSession =
      ⟨some (.unknownPay "cash"), sampleSession, [.asked paySelect]⟩ :=
  ⟨((choosePay_chooseCartMode_tables sampleAskOne sampleSession paymentWechat).1
      (by decide)).1 rfl,
    ((choosePay_chooseCartMode_tables sampleAskOne sampleSession cartModeAvailable).2
      (by decide)).1 rfl,
    ((choosePay_chooseCartMode_tables (fun _ => .ok "cash") sampleSession "cash").1
      rfl).2.2 (by decide) (by decide)⟩

theorem choosePay_error (AskOne : Select → Except String String)
    (s : Session Cart Order PackageOrder) (e : Error) (h : (choosePay AskOne s).err = some e) :
    choosePay AskOne s = ⟨some e, s, [.asked paySelect]⟩ := by
  unfold choosePay at h ⊢
  cases hA : AskOne paySelect with
  | error err =>
    simp [hA] at h ⊢
    exact h
  | ok label =>
    simp only [hA] at h ⊢
    split_ifs at h ⊢
    simp_all

theorem choosePay_ok (AskOne : Select → Except String String)
    (s : Session Cart Order PackageOrder) (h : (choosePay AskOne s).err = none) :
    (choosePay AskOne s).trace = [.asked paySelect] ∧
      (choosePay AskOne s).session.CartMode = s.CartMode ∧
      (choosePay AskOne s).session.Address = s.Address := by
  unfold choosePay at h ⊢
  cases hA : AskOne paySelect with
  | error err => simp [hA] at h
  | ok label =>
    simp only [hA] at h ⊢
    split_ifs at h ⊢ <;> simp_all

theorem chooseCartMode_error (AskOne : Select → Except String String)
    (s : Session Cart Order PackageOrder) (e : Error)
    (h : (chooseCartMode AskOne s).err = some e) :
    chooseCartMode AskOne s = ⟨some e, s, [.asked cartModeSelect]⟩ := by
  unfold chooseCartMode at h ⊢
  cases hA : AskOne cartModeSelect with
  | error err =>
    simp [hA] at h ⊢
    exact h
  | ok label =>
    simp only [hA] at h ⊢
    split_ifs at h ⊢
    simp_all

theorem chooseCartMode_trace (AskOne : Select → Except String String)
    (s : Session Cart Order PackageOrder) :
    (chooseCartMode AskOne s).trace = [.asked cartModeSelect] := by
  unfold chooseCartMode
  cases hA : AskOne cartModeSelect with
  | error err => simp [hA]
  | ok label =>
    simp only [hA]
    split_ifs <;> rfl

/-- Claim C8. `Choose` runs the address step, the payment step and the
cart-mode step in that order and returns the error of the first step that
fails, running no later step. When the address lookup fails, the address prompt
is aborted or the chosen label is not in the mapping, the session is unchanged
(so are `PayType` and `CartMode`) and neither the payment prompt nor the
cart-mode prompt is asked. When the payment step fails, the cart-mode prompt is
not asked and only `Address` has changed. `Choose` returns nil only when all
three steps succeeded, having asked the three prompts in order. -/
theorem Choose_stops_at_first_failure (GetAddress : Except String AddrMap)
    (AskOne : Select → Except String String) (s : Session Cart Order PackageOrder) :
    (∀ err, GetAddress = .error err →
      Choose GetAddress AskOne s = ⟨some (.getAddressFailed err), s, [.lookedUpAddress]⟩) ∧
    (∀ m err, GetAddress = .ok m → AskOne (addrSelect m) = .error err →
      Choose GetAddress AskOne s =
        ⟨some (.askAddressFailed err), s, [.lookedUpAddress, .asked (addrSelect m)]⟩) ∧
    (∀ m label, GetAddress = .ok m → AskOne (addrSelect m) = .ok label →
      m.lookup label = none →
      Choose GetAddress AskOne s =
        ⟨some .wrongAddress, s, [.lookedUpAddress, .asked (addrSelect m)]⟩) ∧
    (∀ m label a, GetAddress = .ok m → AskOne (addrSelect m) = .ok label →
      m.lookup label = some a →
      (∀ e, (choosePay AskOne { s with Address := some a }).err = some e →
        Choose GetAddress AskOne s =
          ⟨some e, { s with Address := some a },
            [.lookedUpAddress, .asked (addrSelect m),
              .loggedAddress a.Location.Address a.AddrDetail, .asked paySelect]⟩) ∧
      ((choosePay AskOne { s with Address := some a }).err = none →
        (∀ e, (chooseCartMode AskOne
            (choosePay AskOne { s with Address := some a }).session).err = some e →
          Choose GetAddress AskOne s =
            ⟨some e, (choosePay AskOne { s with Address := some a }).session,
              [.lookedUpAddress, .asked (addrSelect m),
                .loggedAddress a.Location.Address a.AddrDetail, .asked paySelect,
                .asked cartModeSelect]⟩) ∧
        ((chooseCartMode AskOne
            (choosePay AskOne { s with Address := some a }).session).err = none →
          Choose GetAddress AskOne s =
            ⟨none,
              (chooseCartMode AskOne
                (choosePay AskOne { s with Address := some a }).session).session,
              [.lookedUpAddress, .asked (addrSelect m),
                .loggedAddress a.Location.Address a.AddrDetail, .asked paySelect,
                .asked cartModeSelect]⟩))) ∧
    ((Choose GetAddress AskOne s).err = none →
      ∃ m label a, GetAddress = .ok m ∧ AskOne (addrSelect m) = .ok label ∧
        m.lookup label = some a ∧
        (choosePay AskOne { s with Address := some a }).err = none ∧
        (chooseCartMode AskOne
          (choosePay AskOne { s with Address := some a }).session).err = none) ∧
    (∀ m : AddrMap, addrSelect m ≠ paySelect ∧ addrSelect m ≠ cartModeSelect) ∧
    paySelect ≠ cartModeSelect := by
  have haddr : ∀ m label a, GetAddress = .ok m → AskOne (addrSelect m) = .ok label →
      m.lookup label = some a →
      chooseAddr GetAddress AskOne s = ⟨none, { s with Address := some a },
        [.lookedUpAddress, .asked (addrSelect m),
          .loggedAddress a.Location.Address a.AddrDetail]⟩ := by
    intro m label a h1 h2 h3
    simp [chooseAddr, h1, h2, h3]
  refine ⟨?_, ?_, ?_, ?_, ?_, ?_, by decide⟩
  · intro err h
    simp [Choose, chooseAddr, h]
  · intro m err h1 h2
    simp [Choose, chooseAddr, h1, h2]
  · intro m label h1 h2 h3
    simp [Choose, chooseAddr, h1, h2, h3]
  · intro m label a h1 h2 h3
    refine ⟨?_, ?_⟩
    · intro e he
      have hp := choosePay_error AskOne _ e he
      simp only [Choose, haddr m label a h1 h2 h3, hp]
      rfl
    · intro hpay
      obtain ⟨hpt, -, -⟩ := choosePay_ok AskOne _ hpay
      refine ⟨?_, ?_⟩
      · intro e he
        have hc := chooseCartMode_error AskOne _ e he
        simp only [Choose, haddr m label a h1 h2 h3, hpay, hpt, hc]
        rfl
      · intro hcart
        have hct := chooseCartMode_trace AskOne
          (choosePay AskOne { s with Address := some a }).session
        simp only [Choose, haddr m label a h1 h2 h3, hpay, hpt, hcart, hct]
        rfl
  · intro h
    cases hG : GetAddress with
    | error err => simp [Choose, chooseAddr, hG] at h
    | ok m =>
      cases hA : AskOne (addrSelect m) with
      | error err => simp [Choose, chooseAddr, hG, hA] at h
      | ok label =>
        cases hL : m.lookup label with
        | none => simp [Choose, chooseAddr, hG, hA, hL] at h
        | some a =>
          refine ⟨m, label, a, rfl, hA, hL, ?_, ?_⟩
          · cases hp : (choosePay AskOne { s with Address := some a }).err with
            | none => rfl
            | some e =>
              simp [Choose, haddr m label a hG hA hL, hp] at h
          · cases hp : (choosePay AskOne { s with Address := some a }).err with
            | some e =>
              simp [Choose, haddr m label a hG hA hL, hp] at h
            | none =>
              cases hc : (chooseCartMode AskOne
                  (choosePay AskOne { s with Address := some a }).session).err with
              | none => rfl
              | some e =>
                simp [Choose, haddr m label a hG hA hL, hp, hc] at h
  · intro m
    constructor <;>
    · intro h
      have := congrArg Select.Default h
      simp [addrSelect, paySelect, cartModeSelect] at this

theorem Choose_stops_at_first_failure_witness :
    Choose (.ok sampleAddrMap) sampleAskOne sampleSession =
      ⟨none,
        (chooseCartMode sampleAskOne
          (choosePay sampleAskOne
            { sampleSession with Address := some homeAddress }).session).session,
        [.lookedUpAddress, .asked (addrSelect sampleAddrMap),
          .loggedAddress "Home" "Room 101", .asked paySelect, .asked cartModeSelect]⟩ ∧
    Choose (.error "timeout") sampleAskOne sampleSession =
      ⟨some (.getAddressFailed "timeout"), sampleSession, [.lookedUpAddress]⟩ ∧
    Choose (.ok sampleAddrMap) abortingAskOne sampleSession =
      ⟨some (.askPayFailed "interrupt"), { sampleSession with Address := some homeAddress },
        [.lookedUpAddress, .asked (addrSelect sampleAddrMap),
          .loggedAddress "Home" "Room 101", .asked paySelect]⟩ :=
  ⟨(((Choose_stops_at_first_failure (.ok sampleAddrMap) sampleAskOne sampleSession).2.2.2.1
      sampleAddrMap "Home" homeAddress rfl (by decide) rfl).2 rfl).2 rfl,
    (Choose_stops_at_first_failure (.error "timeout") sampleAskOne sampleSession).1
      "timeout" rfl,
    ((Choose_stops_at_first_failure (.ok sampleAddrMap) abortingAskOne sampleSession).2.2.2.1
      sampleAddrMap "Home" homeAddress rfl (by decide) rfl).1 (.askPayFailed "interrupt") rfl⟩

/-- The end-to-end scenario of the specification: cookie `abc123`, the address
labelled `Home`, the wechat option and the "available items only" option give
`PayType` 4 and `CartMode` 1, and the header set then carries city 0571 and the
two coordinate texts. -/
theorem end_to_end_scenario :
    (Choose (.ok sampleAddrMap) sampleAskOne sampleSession).err = none ∧
    (Choose (.ok sampleAddrMap) sampleAskOne sampleSession).session.PayType = 4 ∧
    (Choose (.ok sampleAddrMap) sampleAskOne sampleSession).session.CartMode = 1 ∧
    (buildHeader sampleFormatFloat
        (Choose (.ok sampleAddrMap) sampleAskOne sampleSession).session).map
      (fun h => (h.Get "ddmc-city-number", h.Get "ddmc-longitude", h.Get "ddmc-latitude")) =
      some ("0571", "120.1", "30.2") := by
  refine ⟨by decide, by decide, by decide, by rfl⟩

end Core
